import Mathlib

/-!
Shallow embedding of `empower/apps/qosslicing/qosslicing.py` (QoS Slicing
application of the empower-runtime controller), together with proofs about
its wire codec, aggregation, classification, quantum allocation and rule
deduplication logic.

Conventions of the embedding:
* a byte is a `Nat` (validity `< 256` is carried as a hypothesis where it
  matters);
* Python dicts keyed by integers become association lists (`List (Nat × α)`)
  with `lookup` / in-place update;
* the per-DSCP counters that the Python code stores as two-element lists
  `[count, avg_packet_size]` are embedded as `List Nat`, because the code
  manipulates them with the list operations `+=` (concatenation) and `[0]`
  (head), not as a record;
* Python floats in the quantum computation are embedded as `ℚ`.
-/

namespace QosSlicing

/-! ## Wire codec (construct `Struct` layouts, lines 57–125)

`Int8ub`, `Int16ub`, `Int32ub` are big-endian unsigned integers, `Bytes k`
is a fixed-width raw byte string, `Array n sub` is `n` repetitions of `sub`.
A decoder takes the byte stream and returns the decoded value together with
the remaining stream, or `none` on a truncated stream. -/

def encInt8 (n : Nat) : List Nat := [n % 256]

def encInt16 (n : Nat) : List Nat := [n / 256 % 256, n % 256]

def encInt32 (n : Nat) : List Nat :=
  [n / 2 ^ 24 % 256, n / 2 ^ 16 % 256, n / 2 ^ 8 % 256, n % 256]

def decInt8 : List Nat → Option (Nat × List Nat)
  | b :: r => some (b, r)
  | [] => none

def decInt16 : List Nat → Option (Nat × List Nat)
  | b1 :: b0 :: r => some (b1 * 256 + b0, r)
  | _ => none

def decInt32 : List Nat → Option (Nat × List Nat)
  | b3 :: b2 :: b1 :: b0 :: r =>
      some (b3 * 2 ^ 24 + b2 * 2 ^ 16 + b1 * 2 ^ 8 + b0, r)
  | _ => none

/-- `Bytes k`: the bytes are emitted verbatim (construct requires the buffer
to have exactly width `k`; that is a validity hypothesis in the theorems). -/
def decBytes (k : Nat) (s : List Nat) : Option (List Nat × List Nat) :=
  if k ≤ s.length then some (s.take k, s.drop k) else none

/-- `Array n sub`: decode `n` repetitions of `sub`. -/
def decArray {α : Type} (dec : List Nat → Option (α × List Nat)) :
    Nat → List Nat → Option (List α × List Nat)
  | 0, s => some ([], s)
  | n + 1, s =>
      match dec s with
      | none => none
      | some (x, s1) =>
          match decArray dec n s1 with
          | none => none
          | some (xs, s2) => some (x :: xs, s2)

theorem decInt8_enc (n : Nat) (hn : n < 256) (r : List Nat) :
    decInt8 (encInt8 n ++ r) = some (n, r) := by
  simp [encInt8, decInt8, Nat.mod_eq_of_lt hn]

theorem decInt16_enc (n : Nat) (hn : n < 2 ^ 16) (r : List Nat) :
    decInt16 (encInt16 n ++ r) = some (n, r) := by
  simp only [encInt16, decInt16, List.cons_append, List.nil_append,
    Option.some.injEq, Prod.mk.injEq, and_true]
  omega

theorem decInt32_enc (n : Nat) (hn : n < 2 ^ 32) (r : List Nat) :
    decInt32 (encInt32 n ++ r) = some (n, r) := by
  simp only [encInt32, decInt32, List.cons_append, List.nil_append,
    Option.some.injEq, Prod.mk.injEq, and_true]
  omega

theorem decBytes_enc (b : List Nat) (k : Nat) (hb : b.length = k)
    (r : List Nat) : decBytes k (b ++ r) = some (b, r) := by
  subst hb
  simp [decBytes, List.take_left, List.drop_left]

theorem decArray_enc {α : Type} (enc : α → List Nat)
    (dec : List Nat → Option (α × List Nat)) (l : List α)
    (h : ∀ x ∈ l, ∀ s, dec (enc x ++ s) = some (x, s)) (r : List Nat) :
    decArray dec l.length (l.flatMap enc ++ r) = some (l, r) := by
  induction l with
  | nil => simp [decArray]
  | cons x xs ih =>
      have hx := h x (by simp) (xs.flatMap enc ++ r)
      have hxs : ∀ y ∈ xs, ∀ s, dec (enc y ++ s) = some (y, s) := by
        intro y hy s; exact h y (by simp [hy]) s
      simp [decArray, List.flatMap_cons, List.append_assoc, hx, ih hxs]

end QosSlicing

namespace QosSlicing

/-! ## Message types

The three construct layouts registered by the app:
`WIFI_DSCP_STATS_REQUEST`, `WIFI_DSCP_STATS_RESPONSE` and
`WIFI_TRAFFIC_RULE_RESPONSE`.  `WIFI_NWID_MAXSIZE` lives in the external
`empower_core.ssid` module; the embedding is parametric in the ssid buffer
width `L` (standing for `WIFI_NWID_MAXSIZE + 1`). -/

structure StatsRequest where
  version : Nat
  type : Nat
  length : Nat
  seq : Nat
  xid : Nat
  device : List Nat
  ssid : List Nat
  deriving Repr, DecidableEq

/-- `DSCP_STATS_ENTRY` (20 bytes: 4 + 4 + 2 + 2 + 1 + 1). -/
structure DscpStatsEntry where
  src_ip : List Nat
  dst_ip : List Nat
  src_port : Nat
  dst_port : Nat
  protocol : Nat
  dscp : Nat
  deriving Repr, DecidableEq

/-- `DSCP_MAP_ENTRY` (9 bytes: 1 + 4 + 4). -/
structure DscpMapEntry where
  code : Nat
  count : Nat
  avg_packet_size : Nat
  deriving Repr, DecidableEq

structure StatsResponse where
  version : Nat
  type : Nat
  length : Nat
  seq : Nat
  xid : Nat
  device : List Nat
  ssid : List Nat
  nb_entries : Nat
  dscp_map_count : Nat
  stats : List DscpStatsEntry
  dscp_map : List DscpMapEntry
  deriving Repr, DecidableEq

/-- `WIFI_TRAFFIC_RULE_RESPONSE` (the rule push; the `match` sub-struct is
inlined as its six fields, same layout as `DSCP_STATS_ENTRY`). -/
structure RulePush where
  version : Nat
  type : Nat
  length : Nat
  seq : Nat
  xid : Nat
  device : List Nat
  dscp : Nat
  rmatch : DscpStatsEntry
  deriving Repr, DecidableEq

def encStatsRequest (m : StatsRequest) : List Nat :=
  encInt8 m.version ++ encInt8 m.type ++ encInt32 m.length ++
    encInt32 m.seq ++ encInt32 m.xid ++ m.device ++ m.ssid

def decStatsRequest (L : Nat) (s : List Nat) : Option StatsRequest :=
  match decInt8 s with
  | none => none
  | some (version, s) =>
  match decInt8 s with
  | none => none
  | some (type, s) =>
  match decInt32 s with
  | none => none
  | some (length, s) =>
  match decInt32 s with
  | none => none
  | some (seq, s) =>
  match decInt32 s with
  | none => none
  | some (xid, s) =>
  match decBytes 6 s with
  | none => none
  | some (device, s) =>
  match decBytes L s with
  | none => none
  | some (ssid, _) =>
    some ⟨version, type, length, seq, xid, device, ssid⟩

def encEntry (e : DscpStatsEntry) : List Nat :=
  e.src_ip.flatMap encInt8 ++ e.dst_ip.flatMap encInt8 ++
    encInt16 e.src_port ++ encInt16 e.dst_port ++
    encInt8 e.protocol ++ encInt8 e.dscp

def decEntry (s : List Nat) : Option (DscpStatsEntry × List Nat) :=
  match decArray decInt8 4 s with
  | none => none
  | some (src_ip, s) =>
  match decArray decInt8 4 s with
  | none => none
  | some (dst_ip, s) =>
  match decInt16 s with
  | none => none
  | some (src_port, s) =>
  match decInt16 s with
  | none => none
  | some (dst_port, s) =>
  match decInt8 s with
  | none => none
  | some (protocol, s) =>
  match decInt8 s with
  | none => none
  | some (dscp, s) =>
    some (⟨src_ip, dst_ip, src_port, dst_port, protocol, dscp⟩, s)

def encMapEntry (e : DscpMapEntry) : List Nat :=
  encInt8 e.code ++ encInt32 e.count ++ encInt32 e.avg_packet_size

def decMapEntry (s : List Nat) : Option (DscpMapEntry × List Nat) :=
  match decInt8 s with
  | none => none
  | some (code, s) =>
  match decInt32 s with
  | none => none
  | some (count, s) =>
  match decInt32 s with
  | none => none
  | some (avg, s) => some (⟨code, count, avg⟩, s)

def encStatsResponse (m : StatsResponse) : List Nat :=
  encInt8 m.version ++ encInt8 m.type ++ encInt32 m.length ++
    encInt32 m.seq ++ encInt32 m.xid ++ m.device ++ m.ssid ++
    encInt16 m.nb_entries ++ encInt8 m.dscp_map_count ++
    m.stats.flatMap encEntry ++ m.dscp_map.flatMap encMapEntry

def decStatsResponse (L : Nat) (s : List Nat) : Option StatsResponse :=
  match decInt8 s with
  | none => none
  | some (version, s) =>
  match decInt8 s with
  | none => none
  | some (type, s) =>
  match decInt32 s with
  | none => none
  | some (length, s) =>
  match decInt32 s with
  | none => none
  | some (seq, s) =>
  match decInt32 s with
  | none => none
  | some (xid, s) =>
  match decBytes 6 s with
  | none => none
  | some (device, s) =>
  match decBytes L s with
  | none => none
  | some (ssid, s) =>
  match decInt16 s with
  | none => none
  | some (nb_entries, s) =>
  match decInt8 s with
  | none => none
  | some (dscp_map_count, s) =>
  match decArray decEntry nb_entries s with
  | none => none
  | some (stats, s) =>
  match decArray decMapEntry dscp_map_count s with
  | none => none
  | some (dscp_map, _) =>
    some ⟨version, type, length, seq, xid, device, ssid,
          nb_entries, dscp_map_count, stats, dscp_map⟩

def encRulePush (m : RulePush) : List Nat :=
  encInt8 m.version ++ encInt8 m.type ++ encInt32 m.length ++
    encInt32 m.seq ++ encInt32 m.xid ++ m.device ++
    encInt8 m.dscp ++ encEntry m.rmatch

def decRulePush (s : List Nat) : Option RulePush :=
  match decInt8 s with
  | none => none
  | some (version, s) =>
  match decInt8 s with
  | none => none
  | some (type, s) =>
  match decInt32 s with
  | none => none
  | some (length, s) =>
  match decInt32 s with
  | none => none
  | some (seq, s) =>
  match decInt32 s with
  | none => none
  | some (xid, s) =>
  match decBytes 6 s with
  | none => none
  | some (device, s) =>
  match decInt8 s with
  | none => none
  | some (dscp, s) =>
  match decEntry s with
  | none => none
  | some (rmatch, _) =>
    some ⟨version, type, length, seq, xid, device, dscp, rmatch⟩

/-! Validity of a message value: every integer field fits its wire width and
every raw-byte field has exactly its wire width. -/

def validEntry (e : DscpStatsEntry) : Prop :=
  e.src_ip.length = 4 ∧ (∀ b ∈ e.src_ip, b < 256) ∧
  e.dst_ip.length = 4 ∧ (∀ b ∈ e.dst_ip, b < 256) ∧
  e.src_port < 2 ^ 16 ∧ e.dst_port < 2 ^ 16 ∧
  e.protocol < 256 ∧ e.dscp < 256

def validMapEntry (e : DscpMapEntry) : Prop :=
  e.code < 256 ∧ e.count < 2 ^ 32 ∧ e.avg_packet_size < 2 ^ 32

def validStatsRequest (L : Nat) (m : StatsRequest) : Prop :=
  m.version < 256 ∧ m.type < 256 ∧ m.length < 2 ^ 32 ∧ m.seq < 2 ^ 32 ∧
  m.xid < 2 ^ 32 ∧ m.device.length = 6 ∧ m.ssid.length = L

def validStatsResponse (L : Nat) (m : StatsResponse) : Prop :=
  m.version < 256 ∧ m.type < 256 ∧ m.length < 2 ^ 32 ∧ m.seq < 2 ^ 32 ∧
  m.xid < 2 ^ 32 ∧ m.device.length = 6 ∧ m.ssid.length = L ∧
  m.nb_entries < 2 ^ 16 ∧ m.dscp_map_count < 256 ∧
  m.stats.length = m.nb_entries ∧ m.dscp_map.length = m.dscp_map_count ∧
  (∀ e ∈ m.stats, validEntry e) ∧ (∀ e ∈ m.dscp_map, validMapEntry e)

def validRulePush (m : RulePush) : Prop :=
  m.version < 256 ∧ m.type < 256 ∧ m.length < 2 ^ 32 ∧ m.seq < 2 ^ 32 ∧
  m.xid < 2 ^ 32 ∧ m.device.length = 6 ∧ m.dscp < 256 ∧ validEntry m.rmatch

/-! Round-trip lemmas, bottom up. -/

theorem decArray8_enc (l : List Nat) (h4 : l.length = 4)
    (hb : ∀ b ∈ l, b < 256) (r : List Nat) :
    decArray decInt8 4 (l.flatMap encInt8 ++ r) = some (l, r) := by
  have h := decArray_enc encInt8 decInt8 l
    (fun b hb2 s => decInt8_enc b (hb b hb2) s) r
  rwa [h4] at h

theorem decEntry_enc (e : DscpStatsEntry) (he : validEntry e) (r : List Nat) :
    decEntry (encEntry e ++ r) = some (e, r) := by
  obtain ⟨h1, h2, h3, h4, h5, h6, h7, h8⟩ := he
  simp [encEntry, decEntry, List.append_assoc, decArray8_enc _ h1 h2,
    decArray8_enc _ h3 h4, decInt16_enc _ h5, decInt16_enc _ h6,
    decInt8_enc _ h7, decInt8_enc _ h8]

theorem decMapEntry_enc (e : DscpMapEntry) (he : validMapEntry e)
    (r : List Nat) : decMapEntry (encMapEntry e ++ r) = some (e, r) := by
  obtain ⟨h1, h2, h3⟩ := he
  simp [encMapEntry, decMapEntry, List.append_assoc, decInt8_enc _ h1,
    decInt32_enc _ h2, decInt32_enc _ h3]

theorem decArrayEntry_enc (l : List DscpStatsEntry) (n : Nat)
    (h : l.length = n) (hv : ∀ e ∈ l, validEntry e) (r : List Nat) :
    decArray decEntry n (l.flatMap encEntry ++ r) = some (l, r) := by
  subst h
  exact decArray_enc encEntry decEntry l
    (fun e he s => decEntry_enc e (hv e he) s) r

theorem decArrayMapEntry_enc (l : List DscpMapEntry) (n : Nat)
    (h : l.length = n) (hv : ∀ e ∈ l, validMapEntry e) (r : List Nat) :
    decArray decMapEntry n (l.flatMap encMapEntry ++ r) = some (l, r) := by
  subst h
  exact decArray_enc encMapEntry decMapEntry l
    (fun e he s => decMapEntry_enc e (hv e he) s) r

theorem decBytes_exact (b : List Nat) (k : Nat) (hb : b.length = k) :
    decBytes k b = some (b, []) := by
  have h := decBytes_enc b k hb []
  rwa [List.append_nil] at h

theorem decArrayMapEntry_exact (l : List DscpMapEntry) (n : Nat)
    (h : l.length = n) (hv : ∀ e ∈ l, validMapEntry e) :
    decArray decMapEntry n (l.flatMap encMapEntry) = some (l, []) := by
  have h2 := decArrayMapEntry_enc l n h hv []
  rwa [List.append_nil] at h2

theorem decEntry_exact (e : DscpStatsEntry) (he : validEntry e) :
    decEntry (encEntry e) = some (e, []) := by
  have h := decEntry_enc e he []
  rwa [List.append_nil] at h

theorem decStatsRequest_enc (L : Nat) (m : StatsRequest)
    (hm : validStatsRequest L m) :
    decStatsRequest L (encStatsRequest m) = some m := by
  obtain ⟨h1, h2, h3, h4, h5, h6, h7⟩ := hm
  simp [encStatsRequest, decStatsRequest, List.append_assoc,
    decInt8_enc _ h1, decInt8_enc _ h2, decInt32_enc _ h3, decInt32_enc _ h4,
    decInt32_enc _ h5, decBytes_enc _ _ h6,
    decBytes_exact m.ssid L h7]

theorem decStatsResponse_enc (L : Nat) (m : StatsResponse)
    (hm : validStatsResponse L m) :
    decStatsResponse L (encStatsResponse m) = some m := by
  obtain ⟨h1, h2, h3, h4, h5, h6, h7, h8, h9, h10, h11, h12, h13⟩ := hm
  simp [encStatsResponse, decStatsResponse, List.append_assoc,
    decInt8_enc _ h1, decInt8_enc _ h2, decInt32_enc _ h3, decInt32_enc _ h4,
    decInt32_enc _ h5, decBytes_enc _ _ h6, decBytes_enc _ _ h7,
    decInt16_enc _ h8, decInt8_enc _ h9,
    decArrayEntry_enc _ _ h10 h12,
    decArrayMapEntry_exact m.dscp_map m.dscp_map_count h11 h13]

theorem decRulePush_enc (m : RulePush) (hm : validRulePush m) :
    decRulePush (encRulePush m) = some m := by
  obtain ⟨h1, h2, h3, h4, h5, h6, h7, h8⟩ := hm
  simp [encRulePush, decRulePush, List.append_assoc,
    decInt8_enc _ h1, decInt8_enc _ h2, decInt32_enc _ h3, decInt32_enc _ h4,
    decInt32_enc _ h5, decBytes_enc _ _ h6, decInt8_enc _ h7,
    decEntry_exact m.rmatch h8]

end QosSlicing

namespace QosSlicing

/-! ## Static configuration tables (lines 313–325, 427–495)

Python dict literals become association lists; the insertion order of the
literal is kept. -/

/-- Module-level constants (lines 128–133). -/
def ACTIVATION_THRESHOLD : Nat := 200

def INDIVIDUAL_SLICE : Nat := 600

def ANY_IP_ADDRESS : List Nat := [0, 0, 0, 0]

def ANY_PORT : Nat := 0

def ANY_PROTOCOL : Nat := 255

/-- The `group_map` dict literal inside `get_dscp_group` (lines 428–458). -/
def group_map : List (Nat × Nat) :=
  [(0, 0), (8, 8), (16, 0), (24, 24), (32, 32), (40, 24), (48, 48), (56, 48),
   (10, 0), (12, 0), (14, 0), (18, 0), (20, 0), (22, 0), (26, 24), (28, 24),
   (30, 24), (34, 32), (36, 32), (38, 32), (46, 46), (44, 46)]

/-- `get_dscp_group` (lines 427–461): unmapped codes fall back to 0. -/
def get_dscp_group (dscp : Nat) : Nat :=
  match group_map.lookup dscp with
  | some g => g
  | none => 0

/-- The `tos_to_dscp_map` dict literal inside `get_tos` (lines 464–491). -/
def tos_to_dscp_map : List (Nat × Nat) :=
  [(0, 0), (8, 32), (16, 64), (24, 96), (32, 128), (40, 160), (48, 192),
   (56, 224), (10, 40), (12, 48), (14, 56), (18, 72), (20, 80), (22, 88),
   (26, 104), (28, 112), (30, 120), (34, 136), (36, 144), (38, 152),
   (46, 184), (44, 176)]

/-- `get_tos` (lines 463–495): unmapped codes fall back to 0. -/
def get_tos (dscp : Nat) : Nat :=
  match tos_to_dscp_map.lookup dscp with
  | some t => t
  | none => 0

/-- The `unit_map` dict literal inside `get_dscp_unit` (lines 316–323);
the Python float values are embedded as rationals. -/
def unit_map : List (Nat × ℚ) :=
  [(8, 1 / 2), (0, 1), (24, 3 / 2), (32, 2), (46, 3), (48, 4)]

/-- `get_dscp_unit` (lines 313–325).  The Python code indexes
`unit_map[group_dscp]` directly, which raises `KeyError` when the group is
missing; the embedding therefore returns an `Option`. -/
def get_dscp_unit (dscp : Nat) : Option ℚ :=
  unit_map.lookup (get_dscp_group dscp)

/-! ## Traffic-rule matches, fingerprint hash and deduplication
(lines 206–224, 417–425) -/

/-- The `match` dict built in `make_traffic_rules` (Python has no fixed
record for it; these are exactly its six keys). -/
structure RuleMatch where
  src_ip : List Nat
  dst_ip : List Nat
  src_port : Nat
  dst_port : Nat
  protocol : Nat
  dscp : Nat
  deriving Repr, DecidableEq

/-- The `traffic_rule` dict: `{"match": ..., "dscp": tos}`; the `dscp` key
holds the rewrite ToS value. -/
structure TrafficRule where
  tmatch : RuleMatch
  dscp : Nat
  deriving Repr, DecidableEq

/-- `get_hash_match` (lines 417–425).  Python's builtin `hash` is the
identity on the small non-negative ints that occur here (IP octets < 256),
so the fingerprint is the plain sum of the six match fields, with each IP
contributing the sum of its four octets. -/
def get_hash_match (m : RuleMatch) : Nat :=
  m.src_port + m.dst_port + m.protocol + m.dscp +
    (m.src_ip.take 4).sum + (m.dst_ip.take 4).sum

/-- In-place update of a Python dict keyed by `Nat`: replace the value when
the key is present, append the binding otherwise. -/
def dictInsert {α : Type} (d : List (Nat × α)) (k : Nat) (v : α) :
    List (Nat × α) :=
  match d with
  | [] => [(k, v)]
  | (k0, v0) :: rest =>
      if k0 = k then (k0, v) :: rest else (k0, v0) :: dictInsert rest k v

/-- `check_traffic_rule_exists` (lines 206–224).  The state is the
`self.traffic_rules` dict mapping match fingerprints to the last pushed
rewrite value; the result is the returned Bool together with the updated
dict. -/
def check_traffic_rule_exists (table : List (Nat × Nat)) (tr : TrafficRule) :
    Bool × List (Nat × Nat) :=
  let key := get_hash_match tr.tmatch
  match table.lookup key with
  | some stored =>
      if tr.dscp = stored then (true, table)
      else (false, dictInsert table key tr.dscp)
  | none => (false, dictInsert table key tr.dscp)

end QosSlicing

namespace QosSlicing

/-! ## Per-device snapshots and the control-loop state (lines 162–165,
342–412).

`handle_response` stores, per reporting device, a `packetStats` dict whose
`dscp_map` maps each DSCP code to the two-element list
`[count, avg_packet_size]`.  Device keys (`EtherAddress`) are abstracted as
`Nat` identifiers; `wifi_slices` is the collaborator-owned view of the
provisioned slices, as slice id paired with the stored `quantum` property. -/

structure Snapshot where
  dscp_map_count : Nat
  dscp_stats_count : Nat
  packets : List RuleMatch
  dscp_map : List (Nat × List Nat)
  deriving Repr, DecidableEq

structure AppState where
  stats : List (Nat × Snapshot)
  traffic_rules : List (Nat × Nat)
  wtps_count : Nat
  wifi_slices : List (Nat × ℚ)
  deriving Repr, DecidableEq

/-! ## Aggregation (lines 232–243)

`dscpMap[code] = stat["dscp_map"][code]` then, on a repeated code,
`dscpMap[code] += stat["dscp_map"][code]`.  The values are Python lists, so
`+=` is list concatenation (extend), not elementwise addition. -/

/-- Merge one device's `dscp_map` into the network-wide `dscpMap`. -/
def aggDevice (acc : List (Nat × List Nat)) (dm : List (Nat × List Nat)) :
    List (Nat × List Nat) :=
  dm.foldl
    (fun a p =>
      match a.lookup p.1 with
      | none => dictInsert a p.1 p.2
      | some v => dictInsert a p.1 (v ++ p.2))
    acc

/-- The `dscpMap` aggregation loop of `make_traffic_rules`
(lines 233–242). -/
def aggregate (stats : List (Nat × Snapshot)) : List (Nat × List Nat) :=
  stats.foldl (fun acc s => aggDevice acc s.2.dscp_map) []

/-! ## Classification (lines 247–276) -/

/-- The body of the per-DSCP classification loop: given a code and its
`packet_count` (`dscpMap[dscp][0]`), return the slice to create and the
candidate traffic rule, or `none` below the activation threshold. -/
def classifyCode (dscp : Nat) (packet_count : Nat) :
    Option (Nat × TrafficRule) :=
  if packet_count > ACTIVATION_THRESHOLD then
    let p : Nat × Nat :=
      if packet_count > INDIVIDUAL_SLICE then (get_tos dscp, dscp)
      else (get_tos (get_dscp_group dscp), get_dscp_group dscp)
    some (p.2,
      { tmatch :=
          { src_ip := ANY_IP_ADDRESS, dst_ip := ANY_IP_ADDRESS,
            src_port := ANY_PORT, dst_port := ANY_PORT,
            protocol := ANY_PROTOCOL, dscp := dscp },
        dscp := p.1 })
  else none

/-! ## Quantum allocation, `make_slices` (lines 285–311) -/

def total_quantum : ℚ := 10000

/-- `get_dscp_unit` as used by `make_slices`; the default 0 branch is dead
code (`unit_lookup_total` below shows the lookup always succeeds). -/
def unitD (dscp : Nat) : ℚ := (get_dscp_unit dscp).getD 0

/-- `slices.extend(wifi_slices); slices = set(slices)` (lines 289–292):
the target slices unioned with the ids of all existing slices. -/
def slice_set (slices : List Nat) (wifi_slices : List (Nat × ℚ)) :
    List Nat :=
  (slices ++ wifi_slices.map Prod.fst).dedup

/-- `total_slice_share` (lines 294–296). -/
def total_slice_share (s : List Nat) : ℚ := (s.map unitD).sum

/-- `quantum = unit * unit_quantum` with
`unit_quantum = total_quantum / total_slice_share` (lines 298–301). -/
def quantumOf (s : List Nat) (dscp : Nat) : ℚ :=
  unitD dscp * (total_quantum / total_slice_share s)

/-- `make_slices` (lines 285–311), returned as the list of
`upsert_wifi_slice(slice_id, quantum)` intents it issues. -/
def make_slices (slices : List Nat) (wifi_slices : List (Nat × ℚ)) :
    List (Nat × ℚ) :=
  let s := slice_set slices wifi_slices
  s.filterMap
    (fun d =>
      let quantum := quantumOf s d
      match wifi_slices.lookup d with
      | some stored => if quantum ≠ stored then some (d, quantum) else none
      | none => some (d, quantum))

/-! ## `make_traffic_rules` (lines 226–283) -/

/-- One iteration of the `for dscp in dscpMap` loop: the accumulator is
(`slices`, `traffic_rules` list, dedup table).  `packet_count` is
`dscpMap[dscp][0]`, i.e. the head of the aggregated value list. -/
def classifyStep (acc : List Nat × List TrafficRule × List (Nat × Nat))
    (p : Nat × List Nat) : List Nat × List TrafficRule × List (Nat × Nat) :=
  match classifyCode p.1 (p.2.headD 0) with
  | none => acc
  | some (dscp_slice, tr) =>
      let res := check_traffic_rule_exists acc.2.2 tr
      (acc.1 ++ [dscp_slice],
       if res.1 then acc.2.1 else acc.2.1 ++ [tr],
       res.2)

/-- `make_traffic_rules`: returns the new state (its dedup table possibly
extended), the slice upsert intents, and the traffic rules handed to
`send_traffic_rules`.  The guard on line 229 makes the whole call a no-op
while `len(self.stats) != self.wtps_count`. -/
def make_traffic_rules (st : AppState) :
    AppState × List (Nat × ℚ) × List TrafficRule :=
  if st.stats.length ≠ st.wtps_count then (st, [], [])
  else
    let dscpMap := aggregate st.stats
    let r := dscpMap.foldl classifyStep ([], [], st.traffic_rules)
    let upserts :=
      if r.1.length > 0 then make_slices r.1 st.wifi_slices else []
    let pushes := if r.2.1.length > 0 then r.2.1 else []
    ({ st with traffic_rules := r.2.2 }, upserts, pushes)

end QosSlicing

namespace QosSlicing

/-! ## Shared helper lemmas -/

theorem mem_of_lookup_eq_some {α : Type} {l : List (Nat × α)} {k : Nat}
    {v : α} (h : l.lookup k = some v) : (k, v) ∈ l := by
  induction l with
  | nil => simp at h
  | cons p rest ih =>
      obtain ⟨a, b⟩ := p
      rw [List.lookup_cons] at h
      by_cases hk : k = a
      · subst hk
        simp at h
        simp [h]
      · have hne : (k == a) = false := beq_false_of_ne hk
        rw [hne] at h
        exact List.mem_cons_of_mem _ (ih h)

theorem lookup_dictInsert {α : Type} (d : List (Nat × α)) (k : Nat) (v : α) :
    (dictInsert d k v).lookup k = some v := by
  induction d with
  | nil => simp [dictInsert, List.lookup_cons]
  | cons p rest ih =>
      obtain ⟨a, b⟩ := p
      by_cases hk : a = k
      · subst hk
        simp [dictInsert, List.lookup_cons]
      · have hne : (k == a) = false := beq_false_of_ne (Ne.symm hk)
        simp [dictInsert, hk, List.lookup_cons, hne, ih]

/-- The group table only produces values in `{0, 8, 24, 32, 46, 48}`. -/
theorem get_dscp_group_mem (d : Nat) :
    get_dscp_group d ∈ [0, 8, 24, 32, 46, 48] := by
  unfold get_dscp_group
  cases h : group_map.lookup d with
  | none => decide
  | some g =>
      have hm := mem_of_lookup_eq_some h
      fin_cases hm <;> decide

/-- The `unit_map` lookup in `get_dscp_unit` always succeeds, with a
positive unit. -/
theorem unit_lookup_total (d : Nat) :
    ∃ u : ℚ, get_dscp_unit d = some u ∧ 0 < u := by
  have hg := get_dscp_group_mem d
  simp only [List.mem_cons, List.not_mem_nil, or_false] at hg
  unfold get_dscp_unit
  rcases hg with h | h | h | h | h | h <;> rw [h] <;>
    exact ⟨_, rfl, by norm_num⟩

/-- `unitD` is positive everywhere. -/
theorem unitD_pos (d : Nat) : 0 < unitD d := by
  obtain ⟨u, hu, hpos⟩ := unit_lookup_total d
  rw [unitD, hu]
  exact hpos

end QosSlicing

namespace QosSlicing

/-- C9: for every DSCP code absent from the group table `get_dscp_group`
returns 0, and for every code absent from the ToS table `get_tos` returns 0;
both lookups are total functions (the explicit `not in` fallback of the
source), mapping unknown codes to the best-effort defaults instead of
raising. -/
theorem unknown_code_defaults :
    (∀ d : Nat, group_map.lookup d = none → get_dscp_group d = 0) ∧
    (∀ d : Nat, tos_to_dscp_map.lookup d = none → get_tos d = 0) := by
  constructor
  · intro d h
    unfold get_dscp_group
    rw [h]
  · intro d h
    unfold get_tos
    rw [h]

/-- C9 witness: DSCP code 1 is in neither table and maps to 0 under both
lookups. -/
theorem unknown_code_defaults_witness :
    get_dscp_group 1 = 0 ∧ get_tos 1 = 0 :=
  ⟨unknown_code_defaults.1 1 (by decide),
   unknown_code_defaults.2 1 (by decide)⟩

/-- C8: the fingerprint `get_hash_match` is stable — two matches with equal
fields hash alike — and not injective: the two wildcard matches on DSCP 46
that differ only by exchanging `src_port = 1` and `dst_port = 2` are
distinct yet share a fingerprint, so the deduplicator can suppress the
first push of a never-pushed rule. -/
theorem hash_stable_and_collides :
    (∀ m1 m2 : RuleMatch, m1.src_ip = m2.src_ip → m1.dst_ip = m2.dst_ip →
      m1.src_port = m2.src_port → m1.dst_port = m2.dst_port →
      m1.protocol = m2.protocol → m1.dscp = m2.dscp →
      get_hash_match m1 = get_hash_match m2) ∧
    (RuleMatch.mk [0, 0, 0, 0] [0, 0, 0, 0] 1 2 255 46 ≠
        RuleMatch.mk [0, 0, 0, 0] [0, 0, 0, 0] 2 1 255 46 ∧
      get_hash_match (RuleMatch.mk [0, 0, 0, 0] [0, 0, 0, 0] 1 2 255 46) =
        get_hash_match (RuleMatch.mk [0, 0, 0, 0] [0, 0, 0, 0] 2 1 255 46)) := by
  refine ⟨?_, by decide, by decide⟩
  intro m1 m2 h1 h2 h3 h4 h5 h6
  unfold get_hash_match
  rw [h1, h2, h3, h4, h5, h6]

/-- C8 witness: stability instantiated at a concrete match. -/
theorem hash_stable_and_collides_witness :
    get_hash_match (RuleMatch.mk [10, 0, 0, 1] [10, 0, 0, 2] 80 443 6 46) =
      get_hash_match (RuleMatch.mk [10, 0, 0, 1] [10, 0, 0, 2] 80 443 6 46) :=
  hash_stable_and_collides.1 _ _ rfl rfl rfl rfl rfl rfl

/-- C4: `check_traffic_rule_exists` pushes (returns false) and records the
rewrite when the match fingerprint is unseen; suppresses (returns true) and
leaves the table unchanged when the stored rewrite is identical; pushes and
overwrites the stored rewrite when it differs.  After any call the table
stores the rule's rewrite under its fingerprint, so an immediately repeated
call with the identical rule returns true. -/
theorem check_traffic_rule_spec (table : List (Nat × Nat))
    (tr : TrafficRule) :
    (table.lookup (get_hash_match tr.tmatch) = none →
      check_traffic_rule_exists table tr =
        (false, dictInsert table (get_hash_match tr.tmatch) tr.dscp)) ∧
    (table.lookup (get_hash_match tr.tmatch) = some tr.dscp →
      check_traffic_rule_exists table tr = (true, table)) ∧
    (∀ stored, table.lookup (get_hash_match tr.tmatch) = some stored →
      tr.dscp ≠ stored →
      check_traffic_rule_exists table tr =
        (false, dictInsert table (get_hash_match tr.tmatch) tr.dscp)) ∧
    (check_traffic_rule_exists table tr).2.lookup (get_hash_match tr.tmatch)
      = some tr.dscp ∧
    (check_traffic_rule_exists
        (check_traffic_rule_exists table tr).2 tr).1 = true := by
  have hnew : table.lookup (get_hash_match tr.tmatch) = none →
      check_traffic_rule_exists table tr =
        (false, dictInsert table (get_hash_match tr.tmatch) tr.dscp) := by
    intro h
    simp [check_traffic_rule_exists, h]
  have hsup : ∀ t : List (Nat × Nat),
      t.lookup (get_hash_match tr.tmatch) = some tr.dscp →
      check_traffic_rule_exists t tr = (true, t) := by
    intro t h
    simp [check_traffic_rule_exists, h]
  have hchg : ∀ stored,
      table.lookup (get_hash_match tr.tmatch) = some stored →
      tr.dscp ≠ stored →
      check_traffic_rule_exists table tr =
        (false, dictInsert table (get_hash_match tr.tmatch) tr.dscp) := by
    intro stored h hne
    simp [check_traffic_rule_exists, h, hne]
  have hpost : (check_traffic_rule_exists table tr).2.lookup
      (get_hash_match tr.tmatch) = some tr.dscp := by
    cases h : table.lookup (get_hash_match tr.tmatch) with
    | none =>
        rw [hnew h]
        exact lookup_dictInsert table _ tr.dscp
    | some stored =>
        by_cases hd : tr.dscp = stored
        · rw [← hd] at h
          rw [hsup table h]
          exact h
        · rw [hchg stored h hd]
          exact lookup_dictInsert table _ tr.dscp
  exact ⟨hnew, fun h => hsup table h, hchg, hpost, by rw [hsup _ hpost]⟩

/-- C4 witness: on an empty table, pushing a concrete rule records its
fingerprint and returns false; repeating the identical rule returns true. -/
theorem check_traffic_rule_spec_witness :
    check_traffic_rule_exists []
        ⟨⟨[0, 0, 0, 0], [0, 0, 0, 0], 0, 0, 255, 46⟩, 184⟩ =
      (false,
        dictInsert []
          (get_hash_match ⟨[0, 0, 0, 0], [0, 0, 0, 0], 0, 0, 255, 46⟩) 184) ∧
    (check_traffic_rule_exists
        (check_traffic_rule_exists []
          ⟨⟨[0, 0, 0, 0], [0, 0, 0, 0], 0, 0, 255, 46⟩, 184⟩).2
        ⟨⟨[0, 0, 0, 0], [0, 0, 0, 0], 0, 0, 255, 46⟩, 184⟩).1 = true :=
  ⟨(check_traffic_rule_spec [] _).1 rfl,
   (check_traffic_rule_spec [] _).2.2.2.2⟩

/-- C10: every DSCP code's group lies in `{0, 8, 24, 32, 46, 48}`, exactly
the key set of the priority-unit table, so `get_dscp_unit` always finds a
(positive) unit; hence on every non-empty slice collection the quantum
divisor `total_slice_share` is positive and the division in `make_slices`
cannot fault. -/
theorem dscp_unit_total_positive :
    (∀ d : Nat, get_dscp_group d ∈ [0, 8, 24, 32, 46, 48]) ∧
    unit_map.map Prod.fst = [8, 0, 24, 32, 46, 48] ∧
    (∀ d : Nat, ∃ u : ℚ, get_dscp_unit d = some u ∧ 0 < u) ∧
    (∀ s : List Nat, s ≠ [] → 0 < total_slice_share s) := by
  refine ⟨get_dscp_group_mem, by decide, unit_lookup_total, ?_⟩
  intro s hs
  have hpos : ∀ x ∈ s.map unitD, (0 : ℚ) < x := by
    intro x hx
    obtain ⟨d, _, rfl⟩ := List.mem_map.1 hx
    exact unitD_pos d
  refine List.sum_pos _ hpos ?_
  intro h
  exact hs (by simpa using h)

/-- C10 witness: the slice set `[46]` has a positive unit sum. -/
theorem dscp_unit_total_positive_witness :
    0 < total_slice_share [46] :=
  dscp_unit_total_positive.2.2.2 [46] (by decide)

end QosSlicing

namespace QosSlicing

/-- Shared helper: the quantum divisor is positive on non-empty slice
collections. -/
theorem total_slice_share_pos (s : List Nat) (hs : s ≠ []) :
    0 < total_slice_share s := by
  have hpos : ∀ x ∈ s.map unitD, (0 : ℚ) < x := by
    intro x hx
    obtain ⟨d, _, rfl⟩ := List.mem_map.1 hx
    exact unitD_pos d
  refine List.sum_pos _ hpos ?_
  intro h
  exact hs (by simpa using h)

/-- Shared helper: multiplying each list element by a constant scales the
sum. -/
theorem sum_map_mul_const (s : List Nat) (f : Nat → ℚ) (c : ℚ) :
    (s.map (fun d => f d * c)).sum = (s.map f).sum * c := by
  induction s with
  | nil => simp
  | cons a t ih => simp [ih, add_mul]

/-- C2: classification of one aggregated DSCP counter: at most the
activation threshold produces nothing; between activation and the
individual threshold produces the group slice `get_dscp_group code` and a
rule rewriting to the group's ToS; above the individual threshold produces
the individual slice `code` and a rule rewriting to the code's own ToS.
Every emitted match carries the original code with wildcards elsewhere, the
slice set handed to `make_slices` is deduplicated, and a count of 601 for
DSCP 46 yields slice 46 with rewrite 184. -/
theorem classify_thresholds (dscp packet_count : Nat) :
    (packet_count ≤ ACTIVATION_THRESHOLD →
      classifyCode dscp packet_count = none) ∧
    (ACTIVATION_THRESHOLD < packet_count →
      packet_count ≤ INDIVIDUAL_SLICE →
      classifyCode dscp packet_count =
        some (get_dscp_group dscp,
          ⟨⟨ANY_IP_ADDRESS, ANY_IP_ADDRESS, ANY_PORT, ANY_PORT,
            ANY_PROTOCOL, dscp⟩, get_tos (get_dscp_group dscp)⟩)) ∧
    (INDIVIDUAL_SLICE < packet_count →
      classifyCode dscp packet_count =
        some (dscp,
          ⟨⟨ANY_IP_ADDRESS, ANY_IP_ADDRESS, ANY_PORT, ANY_PORT,
            ANY_PROTOCOL, dscp⟩, get_tos dscp⟩)) ∧
    (∀ (slices : List Nat) (wifi_slices : List (Nat × ℚ)),
      (slice_set slices wifi_slices).Nodup) ∧
    classifyCode 46 601 =
      some (46, ⟨⟨ANY_IP_ADDRESS, ANY_IP_ADDRESS, ANY_PORT, ANY_PORT,
        ANY_PROTOCOL, 46⟩, 184⟩) := by
  refine ⟨?_, ?_, ?_, fun a b => List.nodup_dedup _, by decide⟩
  · intro h
    have hng : ¬ packet_count > ACTIVATION_THRESHOLD := Nat.not_lt.2 h
    simp [classifyCode, hng]
  · intro h1 h2
    have hng : ¬ packet_count > INDIVIDUAL_SLICE := Nat.not_lt.2 h2
    simp [classifyCode, h1, hng]
  · intro h
    have h0 : ACTIVATION_THRESHOLD < packet_count :=
      lt_trans (by decide : ACTIVATION_THRESHOLD < INDIVIDUAL_SLICE) h
    simp [classifyCode, h0, h]

/-- C2 witness: the concrete 601-packet DSCP 46 counter promotes to the
individual slice. -/
theorem classify_thresholds_witness :
    classifyCode 46 601 =
      some (46, ⟨⟨ANY_IP_ADDRESS, ANY_IP_ADDRESS, ANY_PORT, ANY_PORT,
        ANY_PROTOCOL, 46⟩, get_tos 46⟩) :=
  (classify_thresholds 46 601).2.2.1 (by decide)

/-- C3: over the set `make_slices` rebalances (targets unioned with
existing slices), every slice's quantum equals
`total_quantum * unit / Σ units` and the quanta sum exactly to the 10000
budget; for the set `{0, 46}` (units 1 and 3) the quanta are 2500 and
7500. -/
theorem make_slices_quantum (slices : List Nat)
    (wifi_slices : List (Nat × ℚ))
    (hne : slice_set slices wifi_slices ≠ []) :
    (∀ d ∈ slice_set slices wifi_slices,
      quantumOf (slice_set slices wifi_slices) d =
        total_quantum * unitD d /
          total_slice_share (slice_set slices wifi_slices)) ∧
    ((slice_set slices wifi_slices).map
        (quantumOf (slice_set slices wifi_slices))).sum = total_quantum ∧
    quantumOf (slice_set [0, 46] []) 0 = 2500 ∧
    quantumOf (slice_set [0, 46] []) 46 = 7500 := by
  have hT : total_slice_share (slice_set slices wifi_slices) ≠ 0 :=
    ne_of_gt (total_slice_share_pos _ hne)
  have hset : slice_set [0, 46] [] = [0, 46] := by decide
  have hu0 : unitD 0 = 1 := rfl
  have hu46 : unitD 46 = 3 := rfl
  refine ⟨?_, ?_, ?_, ?_⟩
  · intro d _
    unfold quantumOf
    ring
  · unfold quantumOf
    rw [sum_map_mul_const]
    rw [mul_comm]
    exact div_mul_cancel₀ total_quantum hT
  · rw [hset]
    norm_num [quantumOf, total_slice_share, total_quantum, hu0, hu46]
  · rw [hset]
    norm_num [quantumOf, total_slice_share, total_quantum, hu0, hu46]

/-- C3 witness: the `{0, 46}` slice set sums to the full budget and gives
slice 0 a quantum of 2500. -/
theorem make_slices_quantum_witness :
    ((slice_set [0, 46] []).map (quantumOf (slice_set [0, 46] []))).sum =
      total_quantum ∧
    quantumOf (slice_set [0, 46] []) 0 = 2500 :=
  ⟨(make_slices_quantum [0, 46] [] (by decide)).2.1,
   (make_slices_quantum [0, 46] [] (by decide)).2.2.1⟩

end QosSlicing

namespace QosSlicing

/-- C7: `make_slices` rebalances the union of the target slices with every
currently existing slice, and emits an upsert for a slice exactly when the
slice is new or its freshly computed quantum differs (exact `≠`, no
epsilon) from its stored quantum; a slice whose recomputed quantum equals
its stored quantum receives no upsert at all. -/
theorem make_slices_frame (slices : List Nat)
    (wifi_slices : List (Nat × ℚ)) :
    (∀ p ∈ wifi_slices, p.1 ∈ slice_set slices wifi_slices) ∧
    (∀ d q, (d, q) ∈ make_slices slices wifi_slices ↔
      d ∈ slice_set slices wifi_slices ∧
      q = quantumOf (slice_set slices wifi_slices) d ∧
      wifi_slices.lookup d ≠ some q) ∧
    (∀ d q, wifi_slices.lookup d = some q →
      quantumOf (slice_set slices wifi_slices) d = q →
      ∀ q2, (d, q2) ∉ make_slices slices wifi_slices) := by
  have hiff : ∀ d q, (d, q) ∈ make_slices slices wifi_slices ↔
      d ∈ slice_set slices wifi_slices ∧
      q = quantumOf (slice_set slices wifi_slices) d ∧
      wifi_slices.lookup d ≠ some q := by
    intro d q
    constructor
    · intro hmem
      obtain ⟨a, ha, hfa⟩ := List.mem_filterMap.1 hmem
      cases hl : wifi_slices.lookup a with
      | none =>
          simp only [hl] at hfa
          obtain ⟨rfl, rfl⟩ : a = d ∧
              quantumOf (slice_set slices wifi_slices) a = q := by
            simpa using hfa
          exact ⟨ha, rfl, by simp [hl]⟩
      | some stored =>
          simp only [hl] at hfa
          by_cases hq : quantumOf (slice_set slices wifi_slices) a ≠ stored
          · rw [if_pos hq] at hfa
            obtain ⟨rfl, rfl⟩ : a = d ∧
                quantumOf (slice_set slices wifi_slices) a = q := by
              simpa using hfa
            refine ⟨ha, rfl, ?_⟩
            rw [hl]
            intro hcon
            exact hq (Option.some.inj hcon).symm
          · rw [if_neg hq] at hfa
            exact absurd hfa (by simp)
    · rintro ⟨hd, rfl, hne⟩
      refine List.mem_filterMap.2 ⟨d, hd, ?_⟩
      cases hl : wifi_slices.lookup d with
      | none => simp [hl]
      | some stored =>
          have hqs : quantumOf (slice_set slices wifi_slices) d ≠ stored := by
            intro he
            rw [hl, he] at hne
            exact hne rfl
          simp [hl, hqs]
  refine ⟨?_, hiff, ?_⟩
  · intro p hp
    simp only [slice_set, List.mem_dedup, List.mem_append]
    exact Or.inr (List.mem_map_of_mem _ hp)
  · intro d q hlook hquant q2 hmem
    obtain ⟨_, rfl, hne⟩ := (hiff d q2).1 hmem
    rw [hlook, hquant] at hne
    exact hne rfl

/-- C7 witness: an existing slice 0 enters the rebalanced set when the
target set is `[46]`. -/
theorem make_slices_frame_witness :
    ((0 : Nat), (2500 : ℚ)).1 ∈ slice_set [46] [(0, 2500)] :=
  (make_slices_frame [46] [(0, 2500)]).1 (0, 2500) (List.mem_singleton.2 rfl)

end QosSlicing

namespace QosSlicing

/-- C1 failing input: the aggregation loop stores Python lists and merges a
repeated DSCP code with list `+=`, which concatenates `[count, avg]` pairs
instead of summing them.  With devices 1 and 2 both reporting code 46
(counts 300 and 400), the aggregate entry is the four-element list
`[300, 100, 400, 200]`; the packet count later read as element 0 is 300,
not the network-wide total 700, and iterating the devices in the opposite
order yields a different aggregate. -/
theorem aggregation_concat_failing_input :
    aggregate
        [(1, ⟨1, 0, [], [(46, [300, 100])]⟩),
         (2, ⟨1, 0, [], [(46, [400, 200])]⟩)] =
      [(46, [300, 100, 400, 200])] ∧
    (((aggregate
        [(1, ⟨1, 0, [], [(46, [300, 100])]⟩),
         (2, ⟨1, 0, [], [(46, [400, 200])]⟩)]).lookup 46).getD []).headD 0
      = 300 ∧
    (300 : Nat) ≠ 700 ∧
    aggregate
        [(1, ⟨1, 0, [], [(46, [300, 100])]⟩),
         (2, ⟨1, 0, [], [(46, [400, 200])]⟩)] ≠
      aggregate
        [(2, ⟨1, 0, [], [(46, [400, 200])]⟩),
         (1, ⟨1, 0, [], [(46, [300, 100])]⟩)] := by
  decide

/-- C5: for every valid StatsRequest, StatsResponse and RulePush value,
decoding the encoding returns the value, including the two StatsResponse
arrays whose lengths are taken from the `nb_entries` and `dscp_map_count`
fields of the same message. -/
theorem codec_roundtrip (L : Nat) (m1 : StatsRequest) (m2 : StatsResponse)
    (m3 : RulePush) (h1 : validStatsRequest L m1)
    (h2 : validStatsResponse L m2) (h3 : validRulePush m3) :
    decStatsRequest L (encStatsRequest m1) = some m1 ∧
    decStatsResponse L (encStatsResponse m2) = some m2 ∧
    decRulePush (encRulePush m3) = some m3 :=
  ⟨decStatsRequest_enc L m1 h1, decStatsResponse_enc L m2 h2,
   decRulePush_enc m3 h3⟩

/-- C5 witness: concrete round-trips with ssid width 2, one flow entry and
one DSCP counter entry. -/
theorem codec_roundtrip_witness :
    decStatsRequest 2 (encStatsRequest
        ⟨1, 141, 31, 0, 0, [0, 0, 0, 0, 0, 0], [7, 0]⟩) =
      some ⟨1, 141, 31, 0, 0, [0, 0, 0, 0, 0, 0], [7, 0]⟩ ∧
    decStatsResponse 2 (encStatsResponse
        ⟨1, 142, 63, 0, 0, [1, 2, 3, 4, 5, 6], [7, 0], 1, 1,
         [⟨[10, 0, 0, 1], [10, 0, 0, 2], 80, 443, 6, 46⟩],
         [⟨46, 601, 100⟩]⟩) =
      some ⟨1, 142, 63, 0, 0, [1, 2, 3, 4, 5, 6], [7, 0], 1, 1,
        [⟨[10, 0, 0, 1], [10, 0, 0, 2], 80, 443, 6, 46⟩],
        [⟨46, 601, 100⟩]⟩ ∧
    decRulePush (encRulePush
        ⟨1, 143, 34, 0, 0, [1, 2, 3, 4, 5, 6], 184,
         ⟨[0, 0, 0, 0], [0, 0, 0, 0], 0, 0, 255, 46⟩⟩) =
      some ⟨1, 143, 34, 0, 0, [1, 2, 3, 4, 5, 6], 184,
        ⟨[0, 0, 0, 0], [0, 0, 0, 0], 0, 0, 255, 46⟩⟩ :=
  codec_roundtrip 2 _ _ _
    (by simp only [validStatsRequest]; decide)
    (by simp only [validStatsResponse, validEntry, validMapEntry]; decide)
    (by simp only [validRulePush, validEntry]; decide)

/-- C6: while the number of stored snapshots differs from the expected
device count, `make_traffic_rules` is a no-op — same state (dedup table
included), no slice upserts, no rule pushes.  With an expected count of 3,
the 2-of-3 state produces nothing, and the state holding the 3rd response
classifies: slice 46 is upserted and the DSCP 46 rule with rewrite 184 is
pushed. -/
theorem barrier_noop :
    (∀ st : AppState, st.stats.length ≠ st.wtps_count →
      make_traffic_rules st = (st, [], [])) ∧
    make_traffic_rules
        (AppState.mk
          [(1, ⟨1, 0, [], [(46, [601, 100])]⟩),
           (2, ⟨1, 0, [], [(46, [601, 100])]⟩)] [] 3 []) =
      (AppState.mk
        [(1, ⟨1, 0, [], [(46, [601, 100])]⟩),
         (2, ⟨1, 0, [], [(46, [601, 100])]⟩)] [] 3 [], [], []) ∧
    ((make_traffic_rules
        (AppState.mk
          [(1, ⟨1, 0, [], [(46, [601, 100])]⟩),
           (2, ⟨1, 0, [], [(46, [601, 100])]⟩),
           (3, ⟨1, 0, [], [(46, [601, 100])]⟩)] [] 3 [])).2.1.map
        Prod.fst = [46] ∧
      (make_traffic_rules
        (AppState.mk
          [(1, ⟨1, 0, [], [(46, [601, 100])]⟩),
           (2, ⟨1, 0, [], [(46, [601, 100])]⟩),
           (3, ⟨1, 0, [], [(46, [601, 100])]⟩)] [] 3 [])).2.2 =
        [⟨⟨ANY_IP_ADDRESS, ANY_IP_ADDRESS, ANY_PORT, ANY_PORT,
           ANY_PROTOCOL, 46⟩, 184⟩]) := by
  refine ⟨?_, by decide, by decide, by decide⟩
  intro st h
  unfold make_traffic_rules
  rw [if_pos h]

/-- C6 witness: the universal no-op instantiated at the concrete 2-of-3
state. -/
theorem barrier_noop_witness :
    make_traffic_rules
        (AppState.mk
          [(1, ⟨1, 0, [], [(46, [601, 100])]⟩),
           (2, ⟨1, 0, [], [(46, [601, 100])]⟩)] [] 3 []) =
      (AppState.mk
        [(1, ⟨1, 0, [], [(46, [601, 100])]⟩),
         (2, ⟨1, 0, [], [(46, [601, 100])]⟩)] [] 3 [], [], []) :=
  barrier_noop.1 _ (by decide)

end QosSlicing
